import Mathlib

/-!
Shallow embedding of `src/d1-temp/d1-temp.ino` (ESP8266 temperature /
humidity reporter).  Sensor values are `double` in the source; no
arithmetic is ever performed on them (they are only stored, compared and
printed), so they are embedded as `Rat`.  Strings and buffers are
embedded as `List Char`; file-system state is `Option (List Char)`
(`none` = the file does not exist / cannot be opened).
-/

namespace D1Temp

/-- Result codes of `DHT.read22` (`dht.h`): `DHTLIB_OK`,
`DHTLIB_ERROR_CHECKSUM`, `DHTLIB_ERROR_TIMEOUT`, `DHTLIB_ERROR_CONNECT`,
`DHTLIB_ERROR_ACK_L`, `DHTLIB_ERROR_ACK_H`, plus the `default` arm of the
`switch` in `measureDHT` for any other code. -/
inductive DhtStatus where
  | ok
  | errChecksum
  | errTimeout
  | errConnect
  | errAckL
  | errAckH
  | errUnknown (code : Int)
deriving DecidableEq, Repr

/-- `DhtStatus.isOk s` is `chk == DHTLIB_OK` (line 123). -/
def DhtStatus.isOk : DhtStatus → Bool
  | .ok => true
  | _ => false

/-- Outcome of one `DHT.read22(DHTPIN)` call: the return code together
with the `DHT.temperature` / `DHT.humidity` fields the driver leaves in
the `dht` object. -/
structure DhtSample where
  status : DhtStatus
  temperature : Rat
  humidity : Rat
deriving DecidableEq, Repr

/-- The pair of globals `last_temperature` / `last_humidity`
(lines 86-87). -/
structure Reading where
  last_temperature : Rat
  last_humidity : Rat
deriving DecidableEq, Repr

/-- Initial values of the globals: both are initialised to `-1`
(lines 86-87). -/
def initialReading : Reading := ⟨-1, -1⟩

/-- One MQ publish performed by the sketch: either a reading on the
`temperature` topic (the payload carries `DHT.temperature`,
`DHT.humidity` and the MAC, line 130-135) or the board-info dump on the
`meta` topic (line 409). -/
inductive Publish where
  | temperature (t h : Rat) (mac : String)
  | meta
deriving DecidableEq, Repr

/-- `measureDHT` (lines 111-186): on `DHTLIB_OK` it publishes the
payload built from `DHT.temperature` and `DHT.humidity` to the
`temperature` topic, then records `last_temperature = DHT.temperature`
and `last_humidity = DHT.temperature` (lines 138-139, exactly as the
source reads).  On any other return code it only logs and returns:
no publish, globals untouched (lines 144-184). -/
def measureDHT (mac : String) (r : DhtSample) (st : Reading) :
    Reading × List Publish :=
  if r.status.isOk then
    (⟨r.temperature, r.temperature⟩, [Publish.temperature r.temperature r.humidity mac])
  else
    (st, [])

/-- One piece of output written to the HTTP client by `serveHTML`:
a literal string, a `double` printed via `println` (the two readings),
the local IP, or a character-buffer value (`mqtt_server`). -/
inductive Chunk where
  | text (s : String)
  | num (q : Rat)
  | ip
  | chars (l : List Char)
deriving DecidableEq, Repr

/-- `serveHTML` (lines 506-580): the exact sequence of chunks written to
the client, with the three dynamic values (`last_temperature`,
`last_humidity`, `mqtt_server`) in the positions the source prints
them. -/
def serveHTML (st : Reading) (mqtt_server : List Char) : List Chunk :=
  [Chunk.text "HTTP/1.1 200 OK",
   Chunk.text "Content-Type: text/html",
   Chunk.text "",
   Chunk.text "<!DOCTYPE html>",
   Chunk.text "<html lang=\"en\">",
   Chunk.text "<head>",
   Chunk.text "<title>Temperature &amp; Humidity</title>",
   Chunk.text "<meta charset=\"utf-8\">",
   Chunk.text "<meta name=\"viewport\" content=\"width=device-width, initial-scale=1.0\">",
   Chunk.text "<link href=\"https://maxcdn.bootstrapcdn.com/bootstrap/3.3.7/css/bootstrap.min.css\" rel=\"stylesheet\" integrity=\"sha384-BVYiiSIFeK1dGmJRAkycuHAHRg32OmUcww7on3RYdg4Va+PmSTsz/K68vbdEjh4u\" crossorigin=\"anonymous\">",
   Chunk.text "<script src=\"//code.jquery.com/jquery-1.12.4.min.js\"></script>",
   Chunk.text "<script src=\"https://maxcdn.bootstrapcdn.com/bootstrap/3.3.7/js/bootstrap.min.js\" integrity=\"sha384-Tc5IQib027qvyjSMfHjOMaLkfuWVxZxUPnCJA7l2mCWNIpG9mGCD8wGNIcPD7Txa\" crossorigin=\"anonymous\"></script>",
   Chunk.text "</head>",
   Chunk.text "<body>",
   Chunk.text "<nav id=\"nav\" class = \"navbar navbar-default\" style=\"padding-left:50px; padding-right:50px;\">",
   Chunk.text "<div class = \"navbar-header\">",
   Chunk.text "<h1 class=\"banner\"><a href=\"/\">Temperature &amp; Humidity</a> - <small>by Steve</small></h1>",
   Chunk.text "</div>",
   Chunk.text "<ul class=\"nav navbar-nav navbar-right\">",
   Chunk.text "<li><a href=\"https://steve.fi/Hardware/\">Steve\x27s Projects</a></li>",
   Chunk.text "</ul>",
   Chunk.text "</nav>",
   Chunk.text "<div class=\"container-fluid\">",
   Chunk.text "<div class=\"row\">",
   Chunk.text "<div class=\"col-md-3\"></div>",
   Chunk.text "<div class=\"col-md-9\"><h1>Temperature &amp; Humidity</h1><p>&nbsp;</p></div>",
   Chunk.text "</div>",
   Chunk.text "<div class=\"row\">",
   Chunk.text "<div class=\"col-md-4\"></div>",
   Chunk.text "<div class=\"col-md-4\">",
   Chunk.text "<table class=\"table table-striped table-hover table-condensed table-bordered\">",
   Chunk.text "<tr><td>Temperature</td><td> ",
   Chunk.num st.last_temperature,
   Chunk.text "</td></tr>",
   Chunk.text "<tr><td>Humidity</td><td> ",
   Chunk.num st.last_humidity,
   Chunk.text "</td></tr>",
   Chunk.text "</table>",
   Chunk.text "</div>",
   Chunk.text "<div class=\"col-md-4\"></div>",
   Chunk.text "</div>",
   Chunk.text "<div class=\"row\">",
   Chunk.text "<div class=\"col-md-3\"></div>",
   Chunk.text "<div class=\"col-md-9\"> <h2>Network Details</h2></div>",
   Chunk.text "</div>",
   Chunk.text "<div class=\"row\">",
   Chunk.text "<div class=\"col-md-4\"></div>",
   Chunk.text "<div class=\"col-md-4\">",
   Chunk.text "<p>This device has the IP address <code>",
   Chunk.ip,
   Chunk.text "</code>, and is configured to send data to the following MQ server:</p>",
   Chunk.text "<form action=\"/\" method=\"GET\"><input type=\"text\" name=\"mq\" value=\"",
   Chunk.chars mqtt_server,
   Chunk.text "\"><input type=\"submit\" value=\"Update\"></form>",
   Chunk.text "</div>",
   Chunk.text "<div class=\"col-md-4\"></div>",
   Chunk.text "</div>",
   Chunk.text "</div>",
   Chunk.text "</body>",
   Chunk.text "</html>"]

/-- The two bytes `f.println(data)` appends after `data` (Arduino
`Print::println` writes a carriage return and a line feed). -/
def crlf : List Char := ['\r', '\n']

/-- `write_file` (lines 590-601): opens `path` for writing (truncating);
if the open succeeds it writes `data` followed by CR LF, otherwise it
does nothing.  `canOpen` models whether `SPIFFS.open(path, "w")`
returns a valid handle; the function's C return type is `void`, so the
file-system state is its only effect. -/
def write_file (canOpen : Bool) (data : List Char) (file : Option (List Char)) :
    Option (List Char) :=
  if canOpen then some (data ++ crlf) else file

/-- `readStringUntil('\n')` on a file: reads (and consumes) up to the
first line feed, returning the bytes before it; the whole content if no
line feed occurs. -/
def readUntil (t : Char) (l : List Char) : List Char :=
  l.takeWhile (fun c => c ≠ t)

/-- `read_file` (lines 609-632): reads the first line of the file
(up to `'\n'`), or the empty string when the file cannot be opened,
then copies over every character that is neither `'\n'` nor `'\r'`
(lines 624-629). -/
def read_file (file : Option (List Char)) : List Char :=
  let line := match file with
    | some content => readUntil '\n' content
    | none => []
  line.filter (fun c => c ≠ '\n' ∧ c ≠ '\r')

/-- `DEFAULT_MQ_SERVER` (line 66). -/
def DEFAULT_MQ_SERVER : List Char := "10.0.0.10".toList

/-- Size of the `mqtt_server` buffer (line 60: `char mqtt_server[64]`). -/
def MQTT_SERVER_SIZE : Nat := 64

/-- The `mqtt_server` value `setup` leaves behind (lines 291-299):
`read_file("/mq.addr")`; if non-empty, `strcpy` it into `mqtt_server`
(the whole string, no truncation), else
`strncpy(mqtt_server, DEFAULT_MQ_SERVER, sizeof(mqtt_server) - 1)`. -/
def setupMqttServer (file : Option (List Char)) : List Char :=
  let mq_str := read_file file
  if 0 < mq_str.length then mq_str
  else DEFAULT_MQ_SERVER.take (MQTT_SERVER_SIZE - 1)

/-- Number of bytes `setup`'s copy into `mqtt_server[64]` writes:
`strcpy` writes every byte of the source plus the terminating NUL;
`strncpy(dst, src, 63)` writes exactly 63 bytes. -/
def setupBytesWritten (file : Option (List Char)) : Nat :=
  let mq_str := read_file file
  if 0 < mq_str.length then mq_str.length + 1
  else MQTT_SERVER_SIZE - 1

/-- The literal `pattern` `"/?mq="` (line 447). -/
def mqMarker : List Char := ['/', '?', 'm', 'q', '=']

/-- `strncmp`-style prefix test: does `l` start with `pat`? -/
def startsWith : List Char → List Char → Bool
  | [], _ => true
  | _ :: _, [] => false
  | p :: ps, c :: cs => p == c && startsWith ps cs

/-- Combined model of `request.indexOf("/?mq=")` (line 445) and
`strstr(request.c_str(), pattern)` (line 448): the index of the first
occurrence of `pat` in `l`, or `none` when `pat` does not occur. -/
def strstrIdx (pat : List Char) (l : List Char) : Option Nat :=
  match l with
  | [] => if pat.isEmpty then some 0 else none
  | _ :: rest =>
    if startsWith pat l then some 0
    else (strstrIdx pat rest).map (· + 1)

/-- The copying loop of `processHTTPRequest` (lines 459-465): starting
just past the marker, append each character to `tmp` until a space or
`'&'` is met (`break`) or the input ends.  The loop has no check
against the size of `tmp[64]`: the i-th kept character is written to
`tmp[i]` whatever `i` is, so the length of the returned list is the
number of bytes stored into `tmp`. -/
def copyLoop : List Char → List Char
  | [] => []
  | c :: rest => if c ≠ ' ' ∧ c ≠ '&' then c :: copyLoop rest else []

/-- Query extraction of `processHTTPRequest` (lines 445-465): when the
request line contains `"/?mq="`, the characters copied into `tmp`;
`none` when the marker is absent. -/
def extractMq (line : List Char) : Option (List Char) :=
  match strstrIdx mqMarker line with
  | some i => some (copyLoop (line.drop (i + mqMarker.length)))
  | none => none

/-- Number of bytes the extraction loop stores into `tmp[64]` for a
given request line. -/
def tmpBytesWritten (line : List Char) : Nat :=
  match extractMq line with
  | some v => v.length
  | none => 0

/-- The HTTP response `processHTTPRequest` sends: the 302 redirect of
`redirectIndex` (lines 492-498) or the 200 status page of
`serveHTML`. -/
inductive Response where
  | redirect
  | statusPage (chunks : List Chunk)
deriving DecidableEq, Repr

/-- Caller-visible outcome of `processHTTPRequest`: the file-system
state, the `mqtt_server` global and the response written to the
client. -/
structure HttpOutcome where
  file : Option (List Char)
  mqtt_server : List Char
  response : Response
deriving DecidableEq, Repr

/-- `processHTTPRequest` (lines 434-486): if the first request line
contains `"/?mq="`, extract the value into `tmp`, `write_file` it to
`/mq.addr`, `memset` `mqtt_server` to zero and
`strncpy(mqtt_server, tmp, sizeof(mqtt_server) - 1)` (truncating to 63
characters), then send the redirect; otherwise send the status page.
The function returns `void`: no outcome of `write_file` is inspected
or propagated. -/
def processHTTPRequest (canOpen : Bool) (line : List Char)
    (file : Option (List Char)) (mqtt_server : List Char) (st : Reading) :
    HttpOutcome :=
  match extractMq line with
  | some tmp =>
    { file := write_file canOpen tmp file
      mqtt_server := tmp.take (MQTT_SERVER_SIZE - 1)
      response := Response.redirect }
  | none =>
    { file := file
      mqtt_server := mqtt_server
      response := Response.statusPage (serveHTML st mqtt_server) }

/-- Connection state of the MQ client. -/
inductive ConnState where
  | disconnected
  | connected
deriving DecidableEq, Repr

/-- Side effects of one entry into `reconnect` (lines 390-424): the
`delay(...)` calls made (one per failed attempt, each 5000 ms), the
topics published to, the topics subscribed to, and the final
connection state. -/
structure ReconnectEffects where
  delays : List Nat
  publishes : List String
  subscribes : List String
  state : ConnState
deriving DecidableEq, Repr

/-- `reconnect` (lines 390-424) over a trace of connect-attempt
outcomes (`true` = `client.connect(id)` succeeded): the `while` loop
runs until an attempt succeeds; a success publishes the board info to
`"meta"` and subscribes to `"meta"` once, then the loop exits; a
failure performs `delay(5000)` and retries.  An exhausted trace leaves
the loop still waiting (state `disconnected`) — in the source the loop
simply blocks forever if no attempt ever succeeds. -/
def reconnect : List Bool → ReconnectEffects
  | [] => ⟨[], [], [], ConnState.disconnected⟩
  | true :: _ => ⟨[], ["meta"], ["meta"], ConnState.connected⟩
  | false :: rest =>
    let e := reconnect rest
    ⟨5000 :: e.delays, e.publishes, e.subscribes, e.state⟩

/-- The reconnect-related part of one `loop` iteration (lines 330-331):
`reconnect()` is entered only when `!client.connected()`; while the
client is connected nothing is delayed, published or subscribed by this
step. -/
def loopConnectStep (connected : Bool) (attempts : List Bool) : ReconnectEffects :=
  if connected then ⟨[], [], [], ConnState.connected⟩
  else reconnect attempts

/-- The sampling guard of `loop` (lines 325-346): fold over the values
`millis()` returns at successive iterations, keeping `last_read`
(initially 0); an iteration samples iff
`(last_read == 0) || (abs(now - last_read) > 60 * 1000)`, and then sets
`last_read = now`.  Returns the times at which `measureDHT` is
invoked.  (`millis()` is a 32-bit counter; over the spans considered
here it does not wrap, so times are plain integers.) -/
def loopSamples (last : Int) : List Int → List Int
  | [] => []
  | now :: rest =>
    if last = 0 ∨ 60 * 1000 < (now - last).natAbs then
      now :: loopSamples now rest
    else
      loopSamples last rest

/-- The sampling part of a run of `loop` iterations: fold `measureDHT`
over a list of sensor outcomes, carrying the `last_temperature` /
`last_humidity` globals. -/
def runSamples (mac : String) (rs : List DhtSample) (st : Reading) : Reading :=
  rs.foldl (fun s r => (measureDHT mac r s).1) st

lemma runSamples_of_all_fail (mac : String) (rs : List DhtSample) (st : Reading)
    (h : ∀ r ∈ rs, r.status.isOk = false) : runSamples mac rs st = st := by
  induction rs generalizing st with
  | nil => rfl
  | cons r rest ih =>
    have hr : r.status.isOk = false := h r (List.mem_cons_self r rest)
    have hstep : (measureDHT mac r st).1 = st := by
      simp [measureDHT, hr]
    calc runSamples mac (r :: rest) st
        = runSamples mac rest (measureDHT mac r st).1 := rfl
      _ = runSamples mac rest st := by rw [hstep]
      _ = st := ih st (fun x hx => h x (List.mem_cons_of_mem r hx))

/-- C1: the claim says a successful sample with temperature `t` and
humidity `h` stores `t` in the temperature field and `h` in the
humidity field, and the status page renders that reading.  The code
executes `last_humidity = DHT.temperature` (line 139), so a successful
read with `t = 20`, `h = 55` stores `20` in the humidity field (while
publishing the correct `55` on the `temperature` topic), and the page
renders Humidity `20`, not `55`. -/
theorem C1_humidity_evaluation :
    measureDHT "AA:BB:CC:DD:EE:FF" ⟨DhtStatus.ok, 20, 55⟩ initialReading =
      (⟨20, 20⟩, [Publish.temperature 20 55 "AA:BB:CC:DD:EE:FF"]) ∧
    (measureDHT "AA:BB:CC:DD:EE:FF" ⟨DhtStatus.ok, 20, 55⟩ initialReading).1.last_humidity ≠ 55 ∧
    (∃ pre post, serveHTML (measureDHT "AA:BB:CC:DD:EE:FF" ⟨DhtStatus.ok, 20, 55⟩ initialReading).1 DEFAULT_MQ_SERVER =
      pre ++ [Chunk.text "<tr><td>Humidity</td><td> ", Chunk.num 20,
              Chunk.text "</td></tr>"] ++ post) := by
  refine ⟨rfl, by decide, ?_⟩
  exact ⟨(serveHTML ⟨20, 20⟩ DEFAULT_MQ_SERVER).take 34,
         (serveHTML ⟨20, 20⟩ DEFAULT_MQ_SERVER).drop 37, rfl⟩

/-- C6: on any failed sample (any non-OK return code of `DHT.read22`),
`measureDHT` leaves the stored reading unchanged and performs no
publish (lines 144-184). -/
theorem C6_failure_preserves (mac : String) (r : DhtSample) (st : Reading)
    (h : r.status.isOk = false) : measureDHT mac r st = (st, []) := by
  simp [measureDHT, h]

/-- Witness for C6 at the spec's example: a prior reading `{21, 55}`
and a timed-out sample. -/
theorem C6_failure_preserves_witness :
    (DhtSample.mk DhtStatus.errTimeout 0 0).status.isOk = false ∧
    measureDHT "AA:BB:CC:DD:EE:FF" ⟨DhtStatus.errTimeout, 0, 0⟩ ⟨21, 55⟩ = (⟨21, 55⟩, []) :=
  ⟨by decide, C6_failure_preserves _ _ _ (by decide)⟩

/-- C10: before any successful sample the two globals keep their
initial value `-1` (lines 86-87), and the status page renders `-1` in
both table cells (there is no absent/blank branch in `serveHTML`). -/
theorem C10_initial_sentinel (mac : String) (mq : List Char) (rs : List DhtSample)
    (h : ∀ r ∈ rs, r.status.isOk = false) :
    runSamples mac rs initialReading = initialReading ∧
    initialReading = ⟨-1, -1⟩ ∧
    (∃ pre post, serveHTML (runSamples mac rs initialReading) mq =
      pre ++ [Chunk.text "<tr><td>Temperature</td><td> ", Chunk.num (-1),
              Chunk.text "</td></tr>",
              Chunk.text "<tr><td>Humidity</td><td> ", Chunk.num (-1),
              Chunk.text "</td></tr>"] ++ post) := by
  have hrun : runSamples mac rs initialReading = initialReading :=
    runSamples_of_all_fail mac rs initialReading h
  refine ⟨hrun, rfl, ?_⟩
  rw [hrun]
  exact ⟨(serveHTML initialReading mq).take 31, (serveHTML initialReading mq).drop 37, rfl⟩

/-- Witness for C10: a run of two failed samples. -/
theorem C10_initial_sentinel_witness :
    (∀ r ∈ [DhtSample.mk DhtStatus.errTimeout 0 0, DhtSample.mk DhtStatus.errChecksum 3 4],
      r.status.isOk = false) ∧
    (runSamples "AA:BB:CC:DD:EE:FF"
        [DhtSample.mk DhtStatus.errTimeout 0 0, DhtSample.mk DhtStatus.errChecksum 3 4]
        initialReading = initialReading ∧
     initialReading = ⟨-1, -1⟩ ∧
     (∃ pre post, serveHTML (runSamples "AA:BB:CC:DD:EE:FF"
        [DhtSample.mk DhtStatus.errTimeout 0 0, DhtSample.mk DhtStatus.errChecksum 3 4]
        initialReading) DEFAULT_MQ_SERVER =
        pre ++ [Chunk.text "<tr><td>Temperature</td><td> ", Chunk.num (-1),
                Chunk.text "</td></tr>",
                Chunk.text "<tr><td>Humidity</td><td> ", Chunk.num (-1),
                Chunk.text "</td></tr>"] ++ post)) :=
  ⟨by decide, C10_initial_sentinel _ _ _ (by decide)⟩

/-- A query value of 70 characters, used to exercise the copy loop. -/
def overflowValue : List Char := List.replicate 70 'a'

/-- A request line whose query value is 70 characters long. -/
def overflowLine : List Char := "GET /?mq=".toList ++ overflowValue ++ " HTTP/1.1".toList

/-- C2: the claim says the extraction writes at most 63 bytes into
`tmp[64]` and the startup copy never writes past the end of
`mqtt_server[64]`.  The copy loop (lines 459-465) checks no bound: for
a 70-character query value it stores 70 bytes into `tmp[64]`; and
`setup` copies a non-empty persisted value with `strcpy` (line 297),
writing 71 bytes (70 characters plus the NUL) into `mqtt_server[64]`
for a 70-character persisted value. -/
theorem C2_buffer_overflow :
    extractMq overflowLine = some overflowValue ∧
    tmpBytesWritten overflowLine = 70 ∧
    63 < tmpBytesWritten overflowLine ∧
    setupBytesWritten (some (overflowValue ++ crlf)) = 71 ∧
    MQTT_SERVER_SIZE < setupBytesWritten (some (overflowValue ++ crlf)) := by
  decide

/-- The request line `GET /?mq= HTTP/1.1`: the marker is present but
immediately followed by a space. -/
def emptyMqLine : List Char := "GET /?mq= HTTP/1.1".toList

/-- C3 counterexample: the claim says every `/?mq=` request leaves
`mqtt_server` non-empty; the request `GET /?mq= HTTP/1.1` extracts the
empty value and `processHTTPRequest` overwrites `mqtt_server` with it
(lines 471-472), leaving the endpoint empty. -/
theorem C3_counterexample :
    (processHTTPRequest true emptyMqLine (some ("10.0.0.10".toList ++ crlf))
      ("10.0.0.10".toList) initialReading).mqtt_server = [] := by
  decide

/-- C3 amended: at startup `mqtt_server` is always non-empty (default
fallback, lines 296-299), and a `/?mq=` request whose extracted value
is non-empty leaves `mqtt_server` non-empty; a `/?mq=` request whose
extracted value is empty sets it empty until the next restart. -/
theorem C3_amended (file : Option (List Char)) (canOpen : Bool)
    (line mq v : List Char) (st : Reading)
    (h : extractMq line = some v) (hv : v ≠ []) :
    setupMqttServer file ≠ [] ∧
    (processHTTPRequest canOpen line file mq st).mqtt_server ≠ [] := by
  constructor
  · unfold setupMqttServer
    by_cases hl : 0 < (read_file file).length
    · rw [if_pos hl]
      exact List.length_pos.mp hl
    · rw [if_neg hl]
      decide
  · unfold processHTTPRequest
    rw [h]
    rcases v with _ | ⟨c, cs⟩
    · exact absurd rfl hv
    · intro hnil
      simp [MQTT_SERVER_SIZE] at hnil

/-- Witness for C3: the persisted file is absent and the request
carries the value `192.168.1.50`. -/
theorem C3_amended_witness :
    extractMq "GET /?mq=192.168.1.50 HTTP/1.1".toList = some "192.168.1.50".toList ∧
    (setupMqttServer none ≠ [] ∧
     (processHTTPRequest true "GET /?mq=192.168.1.50 HTTP/1.1".toList none
       DEFAULT_MQ_SERVER initialReading).mqtt_server ≠ []) :=
  ⟨by decide, C3_amended none true ("GET /?mq=192.168.1.50 HTTP/1.1".toList)
    DEFAULT_MQ_SERVER ("192.168.1.50".toList) initialReading (by decide) (by decide)⟩

/-- An ASCII string containing a carriage return. -/
def crRoundTripInput : List Char := ['a', '\r', 'b']

/-- C4 counterexample: the claim quantifies over ASCII strings with no
space or `'&'` only; `"a\rb"` satisfies those hypotheses (length 3,
ASCII, no space, no `'&'`), but `read_file` filters out every CR and LF
(lines 624-629), so the round trip returns `"ab"`, not `"a\rb"`. -/
theorem C4_counterexample :
    crRoundTripInput.length = 3 ∧
    (∀ c ∈ crRoundTripInput, c.toNat < 128 ∧ c ≠ ' ' ∧ c ≠ '&') ∧
    read_file (write_file true crRoundTripInput none) = ['a', 'b'] ∧
    read_file (write_file true crRoundTripInput none) ≠ crRoundTripInput := by
  decide

lemma takeWhile_append_of_all (p : Char → Bool) (s t : List Char)
    (h : ∀ c ∈ s, p c = true) :
    (s ++ t).takeWhile p = s ++ t.takeWhile p := by
  induction s with
  | nil => rfl
  | cons c cs ih =>
    have hc : p c = true := h c (List.mem_cons_self c cs)
    simp only [List.cons_append, List.takeWhile_cons, hc]
    rw [ih (fun x hx => h x (List.mem_cons_of_mem c hx))]
    simp

/-- C4 amended: for any string `s` with `1 ≤ len(s) ≤ 63` containing no
space, `'&'`, carriage return or line feed, `write_file(s)` followed by
`read_file()` returns `s` exactly: the CR LF appended on write is
stripped on read. -/
theorem C4_amended (s : List Char) (h1 : 1 ≤ s.length) (h2 : s.length ≤ 63)
    (h3 : ∀ c ∈ s, c ≠ ' ' ∧ c ≠ '&' ∧ c ≠ '\r' ∧ c ≠ '\n') :
    read_file (write_file true s none) = s := by
  have hwrite : write_file true s none = some (s ++ crlf) := rfl
  rw [hwrite]
  show (readUntil '\n' (s ++ crlf)).filter (fun c => decide (c ≠ '\n' ∧ c ≠ '\r')) = s
  have hread : readUntil '\n' (s ++ crlf) = s ++ ['\r'] := by
    show (s ++ crlf).takeWhile (fun c => decide (c ≠ '\n')) = s ++ ['\r']
    rw [takeWhile_append_of_all _ s crlf
      (fun c hc => by simpa using (h3 c hc).2.2.2)]
    rfl
  rw [hread, List.filter_append]
  have hfilter : s.filter (fun c => decide (c ≠ '\n' ∧ c ≠ '\r')) = s := by
    apply List.filter_eq_self.mpr
    intro c hc
    have := h3 c hc
    simp [this.2.2.1, this.2.2.2]
  rw [hfilter]
  simp

/-- Witness for C4 at the value `192.168.1.50`. -/
theorem C4_amended_witness :
    ("192.168.1.50".toList.length = 12 ∧
     (∀ c ∈ "192.168.1.50".toList, c ≠ ' ' ∧ c ≠ '&' ∧ c ≠ '\r' ∧ c ≠ '\n')) ∧
    read_file (write_file true "192.168.1.50".toList none) = "192.168.1.50".toList :=
  ⟨by decide, C4_amended _ (by decide) (by decide) (by decide)⟩

lemma strstrIdx_of_first (pat line : List Char) (i : Nat)
    (h1 : startsWith pat (line.drop i) = true)
    (h2 : ∀ j, j < i → startsWith pat (line.drop j) = false) :
    strstrIdx pat line = some i := by
  induction line generalizing i with
  | nil =>
    cases pat with
    | nil =>
      cases i with
      | zero => rfl
      | succ n => exact absurd (h2 0 (Nat.succ_pos n)) (by simp [startsWith])
    | cons p ps => simp [List.drop_nil, startsWith] at h1
  | cons c rest ih =>
    cases i with
    | zero =>
      rw [List.drop_zero] at h1
      simp [strstrIdx, h1]
    | succ n =>
      have h0 : startsWith pat (c :: rest) = false := by
        have := h2 0 (Nat.succ_pos n)
        rwa [List.drop_zero] at this
      have hrec : strstrIdx pat rest = some n := by
        apply ih n
        · rwa [List.drop_succ_cons] at h1
        · intro j hj
          have := h2 (j + 1) (Nat.succ_lt_succ hj)
          rwa [List.drop_succ_cons] at this
      simp [strstrIdx, h0, hrec]

lemma copyLoop_eq_takeWhile (l : List Char) :
    copyLoop l = l.takeWhile (fun c => decide (c ≠ ' ' ∧ c ≠ '&')) := by
  induction l with
  | nil => rfl
  | cons c cs ih =>
    by_cases h : c ≠ ' ' ∧ c ≠ '&'
    · simp only [copyLoop, if_pos h, List.takeWhile_cons, decide_eq_true h, ih]
      simp
    · simp only [copyLoop, if_neg h, List.takeWhile_cons, decide_eq_false h]
      simp

/-- C5: for a request line in which the first occurrence of `"/?mq="`
is at index `i`, the extracted value is exactly the run of characters
following the marker up to but excluding the first space or `'&'`; in
particular `GET /?mq=192.168.1.50&foo=bar HTTP/1.1` yields
`192.168.1.50` and `GET /?mq=192.168.1.50 HTTP/1.1` yields
`192.168.1.50`. -/
theorem C5_extraction (line : List Char) (i : Nat)
    (h1 : startsWith mqMarker (line.drop i) = true)
    (h2 : ∀ j, j < i → startsWith mqMarker (line.drop j) = false) :
    (extractMq line =
      some ((line.drop (i + 5)).takeWhile (fun c => decide (c ≠ ' ' ∧ c ≠ '&')))) ∧
    extractMq "GET /?mq=192.168.1.50&foo=bar HTTP/1.1".toList = some "192.168.1.50".toList ∧
    extractMq "GET /?mq=192.168.1.50 HTTP/1.1".toList = some "192.168.1.50".toList := by
  refine ⟨?_, by decide, by decide⟩
  unfold extractMq
  rw [strstrIdx_of_first mqMarker line i h1 h2]
  show some (copyLoop (line.drop (i + mqMarker.length))) = _
  rw [copyLoop_eq_takeWhile]
  rfl

/-- Witness for C5: the first marker occurrence in
`GET /?mq=192.168.1.50&foo=bar HTTP/1.1` is at index 4. -/
theorem C5_extraction_witness :
    startsWith mqMarker (("GET /?mq=192.168.1.50&foo=bar HTTP/1.1".toList).drop 4) = true ∧
    ((extractMq "GET /?mq=192.168.1.50&foo=bar HTTP/1.1".toList =
      some ((("GET /?mq=192.168.1.50&foo=bar HTTP/1.1".toList).drop (4 + 5)).takeWhile
        (fun c => decide (c ≠ ' ' ∧ c ≠ '&')))) ∧
     extractMq "GET /?mq=192.168.1.50&foo=bar HTTP/1.1".toList = some "192.168.1.50".toList ∧
     extractMq "GET /?mq=192.168.1.50 HTTP/1.1".toList = some "192.168.1.50".toList) :=
  ⟨by decide, C5_extraction ("GET /?mq=192.168.1.50&foo=bar HTTP/1.1".toList) 4
    (by decide) (by decide)⟩

/-- C7: starting disconnected, `reconnect` after `k` failed attempts
has performed exactly one `delay(5000)` per failure and is still
disconnected with nothing published or subscribed; once an attempt
succeeds it is connected having published to `meta` exactly once and
subscribed to `meta` exactly once; and a `loop` iteration that finds
the client already connected does not enter `reconnect` at all, so it
repeats neither effect. -/
theorem C7_reconnect (k : Nat) (rest attempts : List Bool) :
    reconnect (List.replicate k false) =
      ⟨List.replicate k 5000, [], [], ConnState.disconnected⟩ ∧
    reconnect (List.replicate k false ++ true :: rest) =
      ⟨List.replicate k 5000, ["meta"], ["meta"], ConnState.connected⟩ ∧
    loopConnectStep true attempts = ⟨[], [], [], ConnState.connected⟩ := by
  refine ⟨?_, ?_, rfl⟩
  · induction k with
    | zero => rfl
    | succ n ih => simp [List.replicate_succ, reconnect, ih]
  · induction k with
    | zero => rfl
    | succ n ih => simp [List.replicate_succ, reconnect, ih]

/-- C8 counterexample: the claim says `write_file` signals
`StoreError::Unavailable` to its caller when the storage cannot be
opened.  The function returns `void` (lines 590-601) and its caller
`processHTTPRequest` behaves identically whether the open succeeds or
fails: same redirect response, same `mqtt_server` update, and the
persisted record silently left unchanged — no error reaches the caller
or the network client. -/
theorem C8_counterexample :
    (processHTTPRequest false "GET /?mq=192.168.1.50 HTTP/1.1".toList
        (some ("10.0.0.10".toList ++ crlf)) DEFAULT_MQ_SERVER initialReading).response =
      (processHTTPRequest true "GET /?mq=192.168.1.50 HTTP/1.1".toList
        (some ("10.0.0.10".toList ++ crlf)) DEFAULT_MQ_SERVER initialReading).response ∧
    (processHTTPRequest false "GET /?mq=192.168.1.50 HTTP/1.1".toList
        (some ("10.0.0.10".toList ++ crlf)) DEFAULT_MQ_SERVER initialReading).mqtt_server =
      (processHTTPRequest true "GET /?mq=192.168.1.50 HTTP/1.1".toList
        (some ("10.0.0.10".toList ++ crlf)) DEFAULT_MQ_SERVER initialReading).mqtt_server ∧
    (processHTTPRequest false "GET /?mq=192.168.1.50 HTTP/1.1".toList
        (some ("10.0.0.10".toList ++ crlf)) DEFAULT_MQ_SERVER initialReading).file =
      some ("10.0.0.10".toList ++ crlf) := by
  decide

/-- C8 amended: `write_file` returns nothing to its caller; when the
underlying storage cannot be opened it silently leaves the persisted
record unchanged, and otherwise it overwrites the single persisted
record with the new value regardless of the record's prior contents. -/
theorem C8_amended (d : List Char) (fs fs1 fs2 : Option (List Char)) :
    write_file false d fs = fs ∧ write_file true d fs1 = write_file true d fs2 := by
  simp [write_file]

/-- A 185-second dense run: `loop` iterations observed at 1 ms, and at
the first milliseconds past each 60-second boundary. -/
def cadenceTrace : List Int := [1, 60002, 120003, 180004]

/-- C9 counterexample: the claim says a 185-second run contains exactly
3 samples.  With iterations inside 185 000 ms the guard
`(last_read == 0) || (abs(now - last_read) > 60 * 1000)` (line 342)
admits a fourth sample at ~180 s: the trace `[1, 60002, 120003, 180004]`
lies within 185 seconds, every gap exceeds 60 s, and all four
iterations sample. -/
theorem C9_counterexample :
    (∀ t ∈ cadenceTrace, 0 < t ∧ t ≤ 185000) ∧
    loopSamples 0 cadenceTrace = cadenceTrace ∧
    (loopSamples 0 cadenceTrace).length = 4 := by
  decide

lemma chain_lt_cons_of_lt {a b : Int} {l : List Int} (hab : a < b)
    (h : List.Chain' (· < ·) (b :: l)) : List.Chain' (· < ·) (a :: l) := by
  cases l with
  | nil => simp
  | cons x xs =>
    rcases List.chain'_cons.mp h with ⟨hbx, hx⟩
    exact List.chain'_cons.mpr ⟨hab.trans hbx, hx⟩

lemma loopSamples_gap (ts : List Int) (last : Int) (hpos : 0 < last)
    (hchain : List.Chain' (· < ·) (last :: ts)) :
    List.Chain' (fun a b => 60 * 1000 < b - a) (last :: loopSamples last ts) := by
  induction ts generalizing last with
  | nil => simp [loopSamples]
  | cons now rest ih =>
    obtain ⟨hln, hrest⟩ := List.chain'_cons.mp hchain
    by_cases hc : last = 0 ∨ 60 * 1000 < (now - last).natAbs
    · rw [show loopSamples last (now :: rest) = now :: loopSamples now rest from
        if_pos hc]
      refine List.chain'_cons.mpr ⟨?_, ih now (hpos.trans hln) hrest⟩
      rcases hc with hc | hc
      · omega
      · omega
    · rw [show loopSamples last (now :: rest) = loopSamples last rest from
        if_neg hc]
      exact ih last hpos (chain_lt_cons_of_lt hln hrest)

/-- C9 amended: with strictly increasing, strictly positive clock
values (so that `last_read == 0` means exactly "no sample has ever been
taken"), the very first `loop` iteration samples and every two
successive samples are more than 60 seconds apart; consequently a dense
185-second run contains 4 samples (~0 s, ~60 s, ~120 s, ~180 s), not
exactly 3. -/
theorem C9_amended (ts : List Int) (h1 : List.Chain' (· < ·) ts)
    (h2 : ∀ t ∈ ts, 0 < t) :
    (loopSamples 0 ts).head? = ts.head? ∧
    List.Chain' (fun a b => 60 * 1000 < b - a) (loopSamples 0 ts) := by
  cases ts with
  | nil => simp [loopSamples]
  | cons t rest =>
    have ht : 0 < t := h2 t (List.mem_cons_self t rest)
    have hstep : loopSamples 0 (t :: rest) = t :: loopSamples t rest :=
      if_pos (Or.inl rfl)
    rw [hstep]
    exact ⟨rfl, loopSamples_gap rest t ht h1⟩

/-- Witness for C9 at the trace `[1, 30000, 70000]`: the iteration at
30 000 ms does not sample (29 999 ms elapsed), the one at 70 000 ms
does. -/
theorem C9_amended_witness :
    loopSamples 0 [1, 30000, 70000] = [1, 70000] ∧
    ((loopSamples 0 [1, 30000, 70000]).head? = ([1, 30000, 70000] : List Int).head? ∧
     List.Chain' (fun a b => 60 * 1000 < b - a) (loopSamples 0 [1, 30000, 70000])) :=
  ⟨by decide, C9_amended [1, 30000, 70000] (by norm_num [List.chain'_cons]) (by decide)⟩

end D1Temp
